import Mathlib

/-!
Shallow embedding of the RSS-news dashboard repository (ai-rss-news).

The repository contains two near-duplicate variants of the pipeline:
* `src/app.py`            — embedded below in namespace `App`
* `src/src/app.py`        — embedded below in namespace `SrcApp`
* `src/news_analyzer.py`  — embedded below in namespace `NewsAnalyzer`
* `src/src/news_analyzer.py` — embedded below in namespace `SrcNewsAnalyzer`

Pure helpers shared by the variants (Python substring test, the
`datetime.strptime` behaviour for the fixed format
`"%a, %d %b %Y %H:%M:%S %z"`, JSON subscripting semantics) are embedded
once at the top level of namespace `AiRssNews`.
-/

namespace AiRssNews

/-- Python's substring test `needle in hay` on lists of characters:
true iff `needle` occurs contiguously inside `hay` (the empty needle
always matches). -/
def listIsInfix : List Char → List Char → Bool
  | needle, [] => needle.isEmpty
  | needle, c :: t => needle.isPrefixOf (c :: t) || listIsInfix needle t

/-- Python's `needle in hay` for strings. -/
def strContains (hay needle : String) : Bool :=
  listIsInfix needle.toList hay.toList

/-- Python's `s[:n]` character-slice of a string. -/
def pyTake (n : Nat) (s : String) : String :=
  String.mk (s.toList.take n)

/-- Python's `str.lower()` (ASCII case mapping; the non-ASCII case
table is not exercised by the strings analysed here). -/
def pyLower (s : String) : String :=
  String.mk (s.toList.map Char.toLower)

/-- The characters Python's `str.strip()` removes (ASCII whitespace;
Python also strips a few non-ASCII Unicode spaces, not exercised
here). -/
def pyStripWs (c : Char) : Bool :=
  c = ' ' || c = '\t' || c = '\n' || c = '\r' || c = '\x0b' || c = '\x0c'

/-- Python's `str.strip()`: drop leading and trailing whitespace. -/
def pyStrip (s : String) : String :=
  String.mk (((s.toList.dropWhile pyStripWs).reverse.dropWhile pyStripWs).reverse)

/-! ## Embedding of `datetime.strptime(s, "%a, %d %b %Y %H:%M:%S %z")`

CPython's `_strptime` compiles the format to a regular expression
(whitespace in the format becomes `\s+`, matched case-insensitively) and
then converts the matched groups, raising `ValueError` on any failure.
Both repository variants wrap the call in `try/except` and fall back to
the raw string, so the embedding only needs "parse succeeded with these
fields" (`some`) versus "strptime raised" (`none`).  The group regexes
are taken from `_strptime.TimeRE`:

* `%a` : an abbreviated weekday name, case-insensitive;
* `%d` : `3[0-1]|[1-2]\d|0[1-9]|[1-9]| [1-9]` (the leading-space
  alternative is subsumed here because the format places `\s+` before it);
* `%b` : an abbreviated month name, case-insensitive;
* `%Y` : `\d\d\d\d`;
* `%H` : `2[0-3]|[0-1]\d|\d`;  `%M` : `[0-5]\d|\d`;  `%S` : `6[0-1]|[0-5]\d|\d`;
* `%z` : `[+-]\d\d:?[0-5]\d(:?[0-5]\d(\.\d{1,6})?)?|Z` where mixed use of
  colons makes `_strptime` raise (`Inconsistent use of :` or an
  `int(':d')` conversion error), and uppercase `Z` alone is exempt from
  case-insensitivity.

After the regex, `_strptime`/`datetime` raise `ValueError` (hence the
repository falls back to the raw string) when the day is out of range
for the month, when the year is 0, when seconds are 60 or 61 (leap
seconds pass the regex but not the `datetime` constructor), or when the
UTC offset is not strictly less than 24 hours in magnitude.  CPython's
`\s` also matches a few non-ASCII Unicode spaces; the embedding models
the ASCII whitespace characters, which is enough for the strings
exercised below. -/

/-- ASCII characters matched by `\s` in the compiled strptime regex. -/
def pyWs (c : Char) : Bool :=
  c = ' ' || c = '\t' || c = '\n' || c = '\r' || c = '\x0b' || c = '\x0c'

/-- Match `\s+`: at least one whitespace character, greedily. -/
def ws1 : List Char → Option (List Char)
  | c :: rest => if pyWs c then some (rest.dropWhile pyWs) else none
  | [] => none

/-- Match a fixed lowercase pattern case-insensitively against the input. -/
def matchCI : List Char → List Char → Option (List Char)
  | [], rest => some rest
  | _ :: _, [] => none
  | p :: ps, c :: cs => if c.toLower = p then matchCI ps cs else none

/-- First alternative of `alts` that matches a prefix of `l` (regex
alternation order). -/
def matchAlts (alts : List (List Char)) (l : List Char) : Option (List Char) :=
  match alts with
  | [] => none
  | a :: rest =>
    match matchCI a l with
    | some r => some r
    | none => matchAlts rest l

/-- Abbreviated weekday names of the C locale (`%a`). -/
def weekdayAbbrevs : List (List Char) :=
  ["mon", "tue", "wed", "thu", "fri", "sat", "sun"].map String.toList

/-- Abbreviated month names of the C locale (`%b`), in month order. -/
def monthAbbrevs : List (List Char) :=
  ["jan", "feb", "mar", "apr", "may", "jun",
   "jul", "aug", "sep", "oct", "nov", "dec"].map String.toList

/-- Match a month abbreviation, returning its 1-based month number. -/
def matchMonthFrom : Nat → List (List Char) → List Char → Option (Nat × List Char)
  | _, [], _ => none
  | i, a :: rest, l =>
    match matchCI a l with
    | some r => some (i, r)
    | none => matchMonthFrom (i + 1) rest l

def matchMonth (l : List Char) : Option (Nat × List Char) :=
  matchMonthFrom 1 monthAbbrevs l

def expectChar (c : Char) : List Char → Option (List Char)
  | x :: rest => if x = c then some rest else none
  | [] => none

/-- Numeric value of a decimal digit character. -/
def digVal (c : Char) : Nat := c.toNat - 48

/-- `%d` : `3[0-1]|[1-2]\d|0[1-9]|[1-9]`. -/
def parseDay : List Char → Option (Nat × List Char)
  | a :: b :: rest =>
    if a = '3' && (b = '0' || b = '1') then some (30 + digVal b, rest)
    else if (a = '1' || a = '2') && b.isDigit then some (10 * digVal a + digVal b, rest)
    else if a = '0' && ('1' ≤ b && b ≤ '9') then some (digVal b, rest)
    else if '1' ≤ a && a ≤ '9' then some (digVal a, b :: rest)
    else none
  | [a] => if '1' ≤ a && a ≤ '9' then some (digVal a, []) else none
  | [] => none

/-- `%H` : `2[0-3]|[0-1]\d|\d`. -/
def parseHour : List Char → Option (Nat × List Char)
  | a :: b :: rest =>
    if a = '2' && ('0' ≤ b && b ≤ '3') then some (20 + digVal b, rest)
    else if (a = '0' || a = '1') && b.isDigit then some (10 * digVal a + digVal b, rest)
    else if a.isDigit then some (digVal a, b :: rest)
    else none
  | [a] => if a.isDigit then some (digVal a, []) else none
  | [] => none

/-- `%M` : `[0-5]\d|\d`. -/
def parseMinute : List Char → Option (Nat × List Char)
  | a :: b :: rest =>
    if ('0' ≤ a && a ≤ '5') && b.isDigit then some (10 * digVal a + digVal b, rest)
    else if a.isDigit then some (digVal a, b :: rest)
    else none
  | [a] => if a.isDigit then some (digVal a, []) else none
  | [] => none

/-- `%S` : `6[0-1]|[0-5]\d|\d` (leap seconds pass the regex). -/
def parseSecond : List Char → Option (Nat × List Char)
  | a :: b :: rest =>
    if a = '6' && (b = '0' || b = '1') then some (60 + digVal b, rest)
    else if ('0' ≤ a && a ≤ '5') && b.isDigit then some (10 * digVal a + digVal b, rest)
    else if a.isDigit then some (digVal a, b :: rest)
    else none
  | [a] => if a.isDigit then some (digVal a, []) else none
  | [] => none

/-- `%Y` : exactly four digits. -/
def parse4Digits : List Char → Option (Nat × List Char)
  | a :: b :: c :: d :: rest =>
    if a.isDigit && b.isDigit && c.isDigit && d.isDigit then
      some (1000 * digVal a + 100 * digVal b + 10 * digVal c + digVal d, rest)
    else none
  | _ => none

/-- Two arbitrary digits (`\d\d`, the offset hour field). -/
def parse2Digits : List Char → Option (Nat × List Char)
  | a :: b :: rest =>
    if a.isDigit && b.isDigit then some (10 * digVal a + digVal b, rest) else none
  | _ => none

/-- `[0-5]\d` (the offset minute and second fields). -/
def parse2DigitsLe59 : List Char → Option (Nat × List Char)
  | a :: b :: rest =>
    if ('0' ≤ a && a ≤ '5') && b.isDigit then some (10 * digVal a + digVal b, rest) else none
  | _ => none

/-- Fractional offset seconds `\.\d{1,6}`.  On seven or more digits the
regex would leave the surplus digits unmatched and the trailing-input
check would raise, so rejecting here gives the same observable
fallback. -/
def parseFrac : List Char → Option (List Char)
  | '.' :: rest =>
    let ds := rest.takeWhile Char.isDigit
    if 1 ≤ ds.length && ds.length ≤ 6 then some (rest.drop ds.length) else none
  | _ => none

/-- `%z`, returning the absolute offset in whole seconds.
`_strptime` computes `hours*3600 + minutes*60 + seconds` from the
matched digit pairs and applies the sign afterwards; mixing a colon
before the minutes with no colon before the seconds (or vice versa)
makes it raise `ValueError`, which the callers turn into the raw-string
fallback, modelled as `none`. -/
def parseZ : List Char → Option (Nat × List Char)
  | [] => none
  | c :: rest =>
    if c = 'Z' then some (0, rest)
    else if c = '+' || c = '-' then
      match parse2Digits rest with
      | none => none
      | some (hh, r1) =>
        let colon1 : Bool := match r1 with | ':' :: _ => true | _ => false
        let r1x := if colon1 then r1.drop 1 else r1
        match parse2DigitsLe59 r1x with
        | none => none
        | some (mm, r2) =>
          let colon2 : Bool := match r2 with | ':' :: _ => true | _ => false
          let r2x := if colon2 then r2.drop 1 else r2
          match parse2DigitsLe59 r2x with
          | none => some (3600 * hh + 60 * mm, r2)
          | some (ss, r3) =>
            if colon1 = colon2 then
              match parseFrac r3 with
              | some r4 => some (3600 * hh + 60 * mm + ss, r4)
              | none => some (3600 * hh + 60 * mm + ss, r3)
            else none
    else none

def isLeapYear (y : Nat) : Bool :=
  (y % 4 == 0) && (y % 100 != 0 || y % 400 == 0)

/-- Days in a month, as validated by `datetime.date`. -/
def daysInMonth (y m : Nat) : Nat :=
  if m = 2 then (if isLeapYear y then 29 else 28)
  else if m = 4 || m = 6 || m = 9 || m = 11 then 30
  else 31

/-- The fields of a successfully parsed RFC-822-style date (the UTC
offset is kept only as a magnitude: the produced output format does not
use it, and the `datetime.timezone` bound is symmetric). -/
structure TimeStruct where
  year : Nat
  month : Nat
  day : Nat
  hour : Nat
  minute : Nat
  second : Nat
  offAbs : Nat
deriving Repr, DecidableEq

/-- `datetime.strptime(s, "%a, %d %b %Y %H:%M:%S %z")`:
`some fields` when the parse succeeds, `none` when it raises
`ValueError` (regex mismatch, trailing input, invalid calendar day,
year 0, leap second, or an offset of 24 hours or more). -/
def strptimeRFC822 (s : String) : Option TimeStruct :=
  match matchAlts weekdayAbbrevs s.toList with
  | none => none
  | some r0 =>
  match expectChar ',' r0 with
  | none => none
  | some r1 =>
  match ws1 r1 with
  | none => none
  | some r2 =>
  match parseDay r2 with
  | none => none
  | some (day, r3) =>
  match ws1 r3 with
  | none => none
  | some r4 =>
  match matchMonth r4 with
  | none => none
  | some (month, r5) =>
  match ws1 r5 with
  | none => none
  | some r6 =>
  match parse4Digits r6 with
  | none => none
  | some (year, r7) =>
  match ws1 r7 with
  | none => none
  | some r8 =>
  match parseHour r8 with
  | none => none
  | some (hour, r9) =>
  match expectChar ':' r9 with
  | none => none
  | some r10 =>
  match parseMinute r10 with
  | none => none
  | some (minute, r11) =>
  match expectChar ':' r11 with
  | none => none
  | some r12 =>
  match parseSecond r12 with
  | none => none
  | some (second, r13) =>
  match ws1 r13 with
  | none => none
  | some r14 =>
  match parseZ r14 with
  | none => none
  | some (offAbs, r15) =>
  if r15 = [] then
    if 1 ≤ year && day ≤ daysInMonth year month && second ≤ 59 && offAbs < 86400 then
      some ⟨year, month, day, hour, minute, second, offAbs⟩
    else none
  else none

/-- Zero-padded two-digit field (`%m`, `%d`, `%H`, `%M` of `strftime`). -/
def pad2 (n : Nat) : String :=
  if n < 10 then "0" ++ toString n else toString n

/-- Four-digit year field (`%Y`); years parsed by `%Y` have exactly four
digits, so padding below 1000 is never exercised. -/
def pad4 (n : Nat) : String :=
  if n < 10 then "000" ++ toString n
  else if n < 100 then "00" ++ toString n
  else if n < 1000 then "0" ++ toString n
  else toString n

/-- `strftime("%Y-%m-%d %H:%M")` on the parsed fields (no timezone
conversion is performed by `strftime`). -/
def formatYmdHM (t : TimeStruct) : String :=
  pad4 t.year ++ "-" ++ pad2 t.month ++ "-" ++ pad2 t.day ++ " " ++
    pad2 t.hour ++ ":" ++ pad2 t.minute

/-- The `try strptime/strftime except: raw` pattern both variants apply
to an entry's date string. -/
def normalize_date (s : String) : String :=
  match strptimeRFC822 s with
  | some t => formatYmdHM t
  | none => s

/-! ## Data model

A raw feed entry as `feedparser` exposes it: each of the attributes the
code reads (`title`, `link`, `summary`, `published`, `updated`) is
optional — `entry.get(k, default)` and `hasattr`/`getattr` distinguish
only present versus absent. -/

structure RawEntry where
  title : Option String
  link : Option String
  summary : Option String
  published : Option String
  updated : Option String
deriving Repr, DecidableEq

/-- A normalized article record as both variants build it.  All four
fields are plain strings, never null. -/
structure Article where
  title : String
  link : String
  summary : String
  published : String
deriving Repr, DecidableEq

/-- The parsed-feed structure `feedparser.parse` returns: a bozo flag,
the optional feed title/description and the entry list. -/
structure ParsedFeed where
  bozo : Bool
  feedTitle : Option String
  feedDescription : Option String
  entries : List RawEntry
deriving Repr, DecidableEq

end AiRssNews

namespace App

open AiRssNews

/-- The per-entry body of the loop in `fetch_rss_feed` (src/app.py):
`pub_date` starts as `"No date"`, is replaced by the `published` (else
`updated`) attribute run through the strptime/strftime `try/except`,
and the remaining fields use `entry.get` defaults. -/
def normalizeEntry (e : RawEntry) : Article :=
  { title := e.title.getD "No title"
    link := e.link.getD ""
    summary := e.summary.getD "No summary available"
    published :=
      match e.published with
      | some p => normalize_date p
      | none =>
        match e.updated with
        | some u => normalize_date u
        | none => "No date" }

/-- The tagged dictionary `fetch_rss_feed` returns: `success: True`
with feed metadata and entries, or `success: False` with the error
text. -/
inductive FetchResult where
  | success (feed_title feed_description : String) (entries : List Article)
  | failure (error : String)
deriving Repr, DecidableEq

/-- `fetch_rss_feed(url, max_entries=50)` (src/app.py).  The input is
the outcome of the `try` body up to `feedparser.parse`: `.ok feed` when
parsing returned a feed structure (`feed.bozo` only triggers a
non-fatal `st.warning`), `.error msg` when the transport/parse layer
raised an exception with text `msg`, which the `except` arm converts to
the failure dictionary. -/
def fetch_rss_feed (parseOutcome : Except String ParsedFeed)
    (max_entries : Nat := 50) : FetchResult :=
  match parseOutcome with
  | .error e => .failure e
  | .ok feed =>
      .success (feed.feedTitle.getD "Unknown Feed") (feed.feedDescription.getD "")
        ((feed.entries.take max_entries).map normalizeEntry)

/-- `filter_entries_by_keywords(entries, keywords)` (src/app.py):
return the input when the keyword list is empty or all keywords are
blank after `strip()`; otherwise keep the entries for which some
stripped, lowercased keyword occurs in the lowercased title or in the
lowercased summary. -/
def filter_entries_by_keywords (entries : List Article) (keywords : List String) :
    List Article :=
  if keywords = [] then entries
  else
    let keywords_lower := (keywords.filter (fun k => pyStrip k != "")).map
      (fun k => pyLower (pyStrip k))
    if keywords_lower = [] then entries
    else
      entries.filter (fun e =>
        keywords_lower.any (fun k =>
          strContains (pyLower e.title) k || strContains (pyLower e.summary) k))

/-- `paginate_entries(entries, page_size=5)` (src/app.py): the pair
`(total_entries, total_pages)` with
`total_pages = math.ceil(total/page_size) if total > 0 else 1`.
`math.ceil` of the exact rational `total/page_size` is
`(total + page_size - 1) / page_size` in natural division. -/
def paginate_entries (entries : List Article) (page_size : Nat := 5) : Nat × Nat :=
  let total_entries := entries.length
  let total_pages :=
    if total_entries > 0 then (total_entries + page_size - 1) / page_size else 1
  (total_entries, total_pages)

end App

namespace SrcApp

open AiRssNews

/-- The per-entry body of the loop in `fetch_rss` (src/src/app.py):
`pub_raw = getattr(e, "published", getattr(e, "updated", ""))`, run
through the same strptime/strftime `try/except`; the title placeholder
is `"Untitled"` in this variant. -/
def normalizeEntry (e : RawEntry) : Article :=
  { title := e.title.getD "Untitled"
    link := e.link.getD ""
    summary := e.summary.getD "No summary available"
    published := normalize_date (e.published.getD (e.updated.getD "")) }

/-- `fetch_rss(url, limit=50)` (src/src/app.py): the first `limit`
entries of the parsed feed, normalized in order.  (`feedparser.parse`
reports failures through its bozo flag instead of raising, so this
variant has no exception branch.) -/
def fetch_rss (feed : ParsedFeed) (limit : Nat := 50) : List Article :=
  (feed.entries.take limit).map normalizeEntry

/-- `filter_by_keywords(entries, keywords)` (src/src/app.py): return
the input when the keyword list is empty; otherwise keep the articles
whose lowercased `f"{title} {summary}"` contains some lowercased
keyword.  This variant does not strip keywords. -/
def filter_by_keywords (entries : List Article) (keywords : List String) :
    List Article :=
  if keywords = [] then entries
  else
    let kws := keywords.map pyLower
    entries.filter (fun art =>
      kws.any (fun k => strContains (pyLower (art.title ++ " " ++ art.summary)) k))

/-- `total_pages = max(1, math.ceil(len(filt_articles) / PER_PAGE))`
with `PER_PAGE = 5` (src/src/app.py). -/
def total_pages (filt_articles : List Article) : Nat :=
  max 1 ((filt_articles.length + 5 - 1) / 5)

end SrcApp

namespace AiRssNews

/-! ## Summarization client model

The JSON values a chat-completion endpoint may return, with Python's
subscripting semantics: `data["key"]` and `data[0]` raise `KeyError`,
`IndexError` or `TypeError` depending on the runtime type, and only the
first two are caught by `except (KeyError, IndexError)`. -/

inductive JVal where
  | null
  | bool (b : Bool)
  | num (n : Int)
  | str (s : String)
  | arr (elems : List JVal)
  | obj (fields : List (String × JVal))
deriving Repr

/-- A raised Python exception, carrying `str(e)`.  For `KeyError` the
text is the `repr` of the missing key (quoted for string keys). -/
inductive PyErr where
  | keyError (msg : String)
  | indexError (msg : String)
  | typeError (msg : String)
deriving Repr, DecidableEq

/-- Whether `except (KeyError, IndexError)` catches the exception. -/
def PyErr.isCatchableKI : PyErr → Bool
  | .keyError _ => true
  | .indexError _ => true
  | .typeError _ => false

/-- `str(e)` of the exception. -/
def PyErr.text : PyErr → String
  | .keyError m => m
  | .indexError m => m
  | .typeError m => m

def jLookup (fields : List (String × JVal)) (k : String) : Option JVal :=
  match fields with
  | [] => none
  | (k2, v) :: rest => if k2 = k then some v else jLookup rest k

/-- Python `v[k]` for a string key `k` (JSON object keys are strings, so
on a dict either the value or `KeyError(k)`; on a list or string a
`TypeError`; other JSON scalars are not subscriptable). -/
def getItemStr (v : JVal) (k : String) : Except PyErr JVal :=
  match v with
  | .obj fields =>
    match jLookup fields k with
    | some x => .ok x
    | none => .error (.keyError ("'" ++ k ++ "'"))
  | .arr _ => .error (.typeError "list indices must be integers or slices, not str")
  | .str _ => .error (.typeError "string indices must be integers, not 'str'")
  | .num _ => .error (.typeError "'int' object is not subscriptable")
  | .bool _ => .error (.typeError "'bool' object is not subscriptable")
  | .null => .error (.typeError "'NoneType' object is not subscriptable")

/-- Python `v[0]`: head of a list (else `IndexError`), first character
of a string (else `IndexError`); a dict with string keys has no key `0`
so raises `KeyError(0)` whose `str` is `"0"`; scalars raise
`TypeError`. -/
def getItemZero (v : JVal) : Except PyErr JVal :=
  match v with
  | .arr [] => .error (.indexError "list index out of range")
  | .arr (x :: _) => .ok x
  | .str s =>
    match s.toList with
    | [] => .error (.indexError "string index out of range")
    | c :: _ => .ok (.str (String.mk [c]))
  | .obj _ => .error (.keyError "0")
  | .num _ => .error (.typeError "'int' object is not subscriptable")
  | .bool _ => .error (.typeError "'bool' object is not subscriptable")
  | .null => .error (.typeError "'NoneType' object is not subscriptable")

/-- The access chain `data["choices"][0]["message"]["content"]` both
analyzer variants perform, with the first exception it raises. -/
def extractContent (data : JVal) : Except PyErr JVal :=
  match getItemStr data "choices" with
  | .error e => .error e
  | .ok choices =>
  match getItemZero choices with
  | .error e => .error e
  | .ok c0 =>
  match getItemStr c0 "message" with
  | .error e => .error e
  | .ok msg => getItemStr msg "content"

mutual

/-- Python `repr` of a JSON-shaped value as `str.format` renders it in
the error f-strings (quote escaping inside strings is not modelled;
the strings exercised here contain no quotes). -/
def pyRepr : JVal → String
  | .null => "None"
  | .bool true => "True"
  | .bool false => "False"
  | .num n => toString n
  | .str s => "'" ++ s ++ "'"
  | .arr xs => "[" ++ pyReprElems xs ++ "]"
  | .obj fs => "\x7b" ++ pyReprFields fs ++ "\x7d"

/-- Comma-separated `repr` of list elements. -/
def pyReprElems : List JVal → String
  | [] => ""
  | [x] => pyRepr x
  | x :: y :: xs => pyRepr x ++ ", " ++ pyReprElems (y :: xs)

/-- Comma-separated `repr` of dict items. -/
def pyReprFields : List (String × JVal) → String
  | [] => ""
  | [(k, v)] => "'" ++ k ++ "': " ++ pyRepr v
  | (k, v) :: p :: rest => "'" ++ k ++ "': " ++ pyRepr v ++ ", " ++ pyReprFields (p :: rest)

end

/-- What the single `requests.post` + `raise_for_status()` call can
produce, fixed by the environment: an exception (connection error or
non-2xx `HTTPError`) with its text, or a 2xx response with raw text and
the outcome of decoding it as JSON (`.error` carries the decoder's
message). -/
inductive HttpOutcome where
  | exn (msg : String)
  | body (text : String) (json : Except String JVal)
deriving Repr

/-- The dictionary both analyzer variants return:
`{"ok": True, "response": content}` or `{"ok": False, "error": msg}`. -/
inductive ApiResult where
  | ok (response : JVal)
  | err (error : String)
deriving Repr

/-- Whether the Python function returned a value or let an exception
propagate to its caller. -/
inductive Outcome where
  | returned (r : ApiResult)
  | raised (e : PyErr)
deriving Repr

end AiRssNews

namespace NewsAnalyzer

open AiRssNews

/-- `call_openrouter_api(prompt)` (src/news_analyzer.py).  The key is
read inside the all-enclosing `try` via `st.secrets["OPENROUTER_API_KEY"]`,
which raises `KeyError('OPENROUTER_API_KEY')` when absent — caught by
the outer `except Exception` before any network call.  The second
argument fixes the behaviour of the one `requests.post`; the returned
number counts network calls attempted. -/
def call_openrouter_api (secretsKey : Option String) (net : HttpOutcome) :
    Outcome × Nat :=
  match secretsKey with
  | none => (.returned (.err "API call failed: 'OPENROUTER_API_KEY'"), 0)
  | some _ =>
    match net with
    | .exn m => (.returned (.err ("API call failed: " ++ m)), 1)
    | .body text (.error decodeMsg) =>
        (.returned (.err ("JSON parsing failed: " ++ decodeMsg ++
          ". Raw response: " ++ pyTake 200 text)), 1)
    | .body _ (.ok data) =>
      match extractContent data with
      | .ok content => (.returned (.ok content), 1)
      | .error e =>
        if e.isCatchableKI then
          (.returned (.err ("Invalid API response structure: " ++ e.text)), 1)
        else
          (.returned (.err ("API call failed: " ++ e.text)), 1)

end NewsAnalyzer

namespace SrcNewsAnalyzer

open AiRssNews

/-- `call_openrouter_api(prompt, temperature=0.4)`
(src/src/news_analyzer.py).  `API_KEY` is `st.secrets.get(...)` falling
back to `os.getenv(...)`, so `none` models it unset and `some ""` an
empty value; `if not API_KEY` guards both locally before any network
call.  Only `except (KeyError, IndexError)` protects the
`data["choices"][0]["message"]["content"]` chain, so a `TypeError`
raised there propagates out of the function (`.raised`). -/
def call_openrouter_api (api_key : Option String) (net : HttpOutcome) :
    Outcome × Nat :=
  if api_key = none ∨ api_key = some "" then
    (.returned (.err "OPENROUTER_API_KEY missing in secrets / env-vars"), 0)
  else
    match net with
    | .exn m => (.returned (.err ("HTTP error: " ++ m)), 1)
    | .body text (.error _) =>
        (.returned (.err ("Non-JSON response: “" ++ pyTake 200 text ++ " …”")), 1)
    | .body _ (.ok data) =>
      match extractContent data with
      | .ok content => (.returned (.ok content), 1)
      | .error e =>
        if e.isCatchableKI then
          (.returned (.err ("Malformed JSON structure: " ++ e.text ++
            " — full JSON: " ++ pyRepr data)), 1)
        else
          (.raised e, 1)

end SrcNewsAnalyzer

namespace AiRssNews

/-! ## Statement of claim C1 as worded, and sample data for witnesses -/

/-- The keep-predicate of claim C1 exactly as worded by the
specification: an article is kept iff at least one keyword is a
case-insensitive substring of the concatenation of the article's title
and summary. -/
def claimKeepC1 (keywords : List String) (a : Article) : Bool :=
  keywords.any (fun k => strContains (pyLower (a.title ++ a.summary)) (pyLower k))

/-- Sample article whose title matches the keyword `"ai"`. -/
def artAI1 : Article := ⟨"AI breakthrough", "", "x", ""⟩

/-- Sample article matching no keyword used in the witnesses. -/
def artSport : Article := ⟨"Sports update", "", "y", ""⟩

/-- Second sample article whose title matches the keyword `"ai"`. -/
def artAI2 : Article := ⟨"New AI chip", "", "z", ""⟩

end AiRssNews

namespace AiRssNews

/-! ## Claims -/

/-- Claim C1, as stated, is refuted: the keyword `"bc"` is a
case-insensitive substring of the concatenation `"ab" ++ "cd"` of the
article's title and summary, so the claimed filter keeps the article,
but both implementations drop it (they test the title and summary
separately, resp. joined by a space — never the bare concatenation). -/
theorem claim_C1_counterexample :
    claimKeepC1 ["bc"] ⟨"ab", "", "cd", ""⟩ = true ∧
    List.filter (fun a => claimKeepC1 ["bc"] a) [⟨"ab", "", "cd", ""⟩] =
      [(⟨"ab", "", "cd", ""⟩ : Article)] ∧
    App.filter_entries_by_keywords [⟨"ab", "", "cd", ""⟩] ["bc"] = [] ∧
    SrcApp.filter_by_keywords [⟨"ab", "", "cd", ""⟩] ["bc"] = [] := by
  refine ⟨rfl, rfl, rfl, rfl⟩

/-- Claim C1 (amended): for every article sequence and every keyword
list that is non-empty after discarding blank keywords,
`filter_entries_by_keywords` (src/app.py) returns the order-preserving
subsequence of articles for which at least one trimmed keyword is a
case-insensitive substring of the title or of the summary, and
`filter_by_keywords` (src/src/app.py) returns the order-preserving
subsequence for which at least one keyword is a case-insensitive
substring of the title and summary joined by a single space (logical OR
over keywords in both variants). -/
theorem claim_C1 (entries : List Article) (keywords : List String)
    (h : keywords.filter (fun k => pyStrip k != "") ≠ []) :
    App.filter_entries_by_keywords entries keywords =
      entries.filter (fun a => (keywords.filter (fun k => pyStrip k != "")).any
        (fun k => strContains (pyLower a.title) (pyLower (pyStrip k)) ||
                  strContains (pyLower a.summary) (pyLower (pyStrip k)))) ∧
    SrcApp.filter_by_keywords entries keywords =
      entries.filter (fun a => keywords.any
        (fun k => strContains (pyLower (a.title ++ " " ++ a.summary)) (pyLower k))) := by
  have hk : keywords ≠ [] := by
    intro he
    rw [he] at h
    simp at h
  constructor
  · have hml : (keywords.filter (fun k => pyStrip k != "")).map
        (fun k => pyLower (pyStrip k)) ≠ [] := by
      simpa using h
    simp only [App.filter_entries_by_keywords, if_neg hk, if_neg hml]
    congr 1
    funext a
    rw [List.any_map]
    rfl
  · simp only [SrcApp.filter_by_keywords, if_neg hk]
    congr 1
    funext a
    rw [List.any_map]
    rfl

/-- Witness for the amended claim C1, on the specification's concrete
scenario: titles `["AI breakthrough", "Sports update", "New AI chip"]`
with keyword list `["ai"]` keep exactly the first and third articles,
in order. -/
theorem claim_C1_witness :
    App.filter_entries_by_keywords [artAI1, artSport, artAI2] ["ai"] =
      List.filter (fun a => (List.filter (fun k => pyStrip k != "") ["ai"]).any
        (fun k => strContains (pyLower a.title) (pyLower (pyStrip k)) ||
                  strContains (pyLower a.summary) (pyLower (pyStrip k))))
        [artAI1, artSport, artAI2] ∧
    SrcApp.filter_by_keywords [artAI1, artSport, artAI2] ["ai"] =
      List.filter (fun a => ["ai"].any
        (fun k => strContains (pyLower (a.title ++ " " ++ a.summary)) (pyLower k)))
        [artAI1, artSport, artAI2] :=
  claim_C1 [artAI1, artSport, artAI2] ["ai"] (by decide)

/-- Claim C2: a date string on which the strict
`strptime("%a, %d %b %Y %H:%M:%S %z")` parse succeeds is reformatted as
`"%Y-%m-%d %H:%M"`, and every other string is returned unchanged; the
fallback is total (the embedding returns a string for every input, so
no exception escapes and later entries are unaffected). -/
theorem claim_C2 (s : String) :
    (∀ t, strptimeRFC822 s = some t → normalize_date s = formatYmdHM t) ∧
    (strptimeRFC822 s = none → normalize_date s = s) := by
  constructor
  · intro t ht
    simp [normalize_date, ht]
  · intro h
    simp [normalize_date, h]

/-- Witness for claim C2: an RFC-822-style date is reformatted exactly,
and a regex-matching but invalid calendar date (Feb 30) falls back to
the raw text unchanged. -/
theorem claim_C2_witness :
    (strptimeRFC822 "Mon, 02 Jan 2006 15:04:05 -0700" =
       some ⟨2006, 1, 2, 15, 4, 5, 25200⟩ ∧
     normalize_date "Mon, 02 Jan 2006 15:04:05 -0700" = "2006-01-02 15:04") ∧
    (strptimeRFC822 "Mon, 30 Feb 2006 15:04:05 -0700" = none ∧
     normalize_date "Mon, 30 Feb 2006 15:04:05 -0700" =
       "Mon, 30 Feb 2006 15:04:05 -0700") :=
  ⟨⟨rfl, (claim_C2 _).1 ⟨2006, 1, 2, 15, 4, 5, 25200⟩ rfl⟩,
   ⟨rfl, (claim_C2 _).2 rfl⟩⟩

end AiRssNews

namespace AiRssNews

/-- Claim C3: with no configured API key, both analyzer variants return
a failure whose message names `OPENROUTER_API_KEY`, and the count of
network calls attempted is zero, whatever the transport would have
done.  (src/src/news_analyzer.py checks `if not API_KEY` before the
request; src/news_analyzer.py raises `KeyError` out of
`st.secrets[...]` into its outer handler before the request.) -/
theorem claim_C3 (net : HttpOutcome) :
    SrcNewsAnalyzer.call_openrouter_api none net =
      (.returned (.err "OPENROUTER_API_KEY missing in secrets / env-vars"), 0) ∧
    strContains "OPENROUTER_API_KEY missing in secrets / env-vars"
      "OPENROUTER_API_KEY" = true ∧
    NewsAnalyzer.call_openrouter_api none net =
      (.returned (.err "API call failed: 'OPENROUTER_API_KEY'"), 0) ∧
    strContains "API call failed: 'OPENROUTER_API_KEY'"
      "OPENROUTER_API_KEY" = true := by
  refine ⟨?_, rfl, rfl, rfl⟩
  simp [SrcNewsAnalyzer.call_openrouter_api]

/-- Claim C4: when the transport/parse layer raises, `fetch_rss_feed`
(src/app.py) returns the failure dictionary carrying the exception
text, and for every parse outcome it returns a tagged success or
failure value — the exception never escapes the function. -/
theorem claim_C4 (msg : String) (max_entries : Nat) :
    App.fetch_rss_feed (.error msg) max_entries = .failure msg ∧
    ∀ po : Except String ParsedFeed,
      (∃ ft fd arts, App.fetch_rss_feed po max_entries = .success ft fd arts) ∨
      (∃ e, App.fetch_rss_feed po max_entries = .failure e) := by
  refine ⟨rfl, ?_⟩
  intro po
  cases po with
  | error e => exact Or.inr ⟨e, rfl⟩
  | ok feed => exact Or.inl ⟨_, _, _, rfl⟩

/-- Claim C5: on a feed with `N` entries and `maxEntries = M`, both
normalizers return exactly `min N M` articles, namely the entrywise
normalization of the source list truncated at `M` — order preserved. -/
theorem claim_C5 (feed : ParsedFeed) (M : Nat) :
    App.fetch_rss_feed (.ok feed) M =
      .success (feed.feedTitle.getD "Unknown Feed") (feed.feedDescription.getD "")
        ((feed.entries.map App.normalizeEntry).take M) ∧
    ((feed.entries.map App.normalizeEntry).take M).length =
      min feed.entries.length M ∧
    SrcApp.fetch_rss feed M = (feed.entries.map SrcApp.normalizeEntry).take M ∧
    (SrcApp.fetch_rss feed M).length = min feed.entries.length M := by
  refine ⟨?_, ?_, ?_, ?_⟩
  · simp [App.fetch_rss_feed, List.map_take]
  · simp [List.length_take, Nat.min_comm]
  · simp [SrcApp.fetch_rss, List.map_take]
  · simp [SrcApp.fetch_rss, List.length_take, Nat.min_comm]

/-- Claim C6 as stated is refuted by src/src/app.py: the keyword list
`["\t"]` is empty after trimming blanks, yet `filter_by_keywords` does
not trim and uses the raw tab as a substring test, dropping an article
it should leave untouched. -/
theorem claim_C6_counterexample :
    pyStrip "\t" = "" ∧
    SrcApp.filter_by_keywords [⟨"a", "", "b", ""⟩] ["\t"] = [] ∧
    [(⟨"a", "", "b", ""⟩ : Article)] ≠ [] := by
  refine ⟨rfl, rfl, by decide⟩

/-- Claim C6 (amended): `filter_entries_by_keywords` (src/app.py)
returns its input unchanged whenever every keyword is blank after
trimming — including the empty list; `filter_by_keywords`
(src/src/app.py) guarantees the identity law only for the literally
empty keyword list, since it does not trim keywords. -/
theorem claim_C6 (entries : List Article) (keywords : List String)
    (h : ∀ k ∈ keywords, pyStrip k = "") :
    App.filter_entries_by_keywords entries keywords = entries ∧
    SrcApp.filter_by_keywords entries [] = entries := by
  constructor
  · by_cases hk : keywords = []
    · simp [App.filter_entries_by_keywords, hk]
    · have hfil : keywords.filter (fun k => pyStrip k != "") = [] := by
        rw [List.filter_eq_nil_iff]
        intro a ha
        simp [h a ha]
      simp [App.filter_entries_by_keywords, hk, hfil]
  · rfl

/-- Witness for the amended claim C6: a keyword list of one all-blank
and one tab-only string leaves the input unchanged in src/app.py, and
the empty list leaves it unchanged in src/src/app.py. -/
theorem claim_C6_witness :
    App.filter_entries_by_keywords [artAI1] ["  ", "\t"] = [artAI1] ∧
    SrcApp.filter_by_keywords [artAI1] [] = [artAI1] :=
  claim_C6 [artAI1] ["  ", "\t"] (by decide)

/-- Claim C7: for every positive page size, `paginate_entries`
(src/app.py) reports `max 1 ⌈count / pageSize⌉` total pages (its
`if count > 0` branch agrees with the `max` form), and `total_pages`
(src/src/app.py) is literally that expression with page size 5. -/
theorem claim_C7 (entries : List Article) (page_size : Nat)
    (h : 0 < page_size) :
    (App.paginate_entries entries page_size).2 =
      max 1 ((entries.length + page_size - 1) / page_size) ∧
    SrcApp.total_pages entries = max 1 ((entries.length + 5 - 1) / 5) := by
  refine ⟨?_, rfl⟩
  simp only [App.paginate_entries]
  by_cases hn : 0 < entries.length
  · rw [if_pos hn]
    have h1 : 1 ≤ (entries.length + page_size - 1) / page_size :=
      (Nat.one_le_div_iff h).mpr (by omega)
    exact (Nat.max_eq_right h1).symm
  · rw [if_neg hn]
    have hn0 : entries.length = 0 := by omega
    have hd : (entries.length + page_size - 1) / page_size = 0 := by
      rw [hn0]
      exact Nat.div_eq_of_lt (by omega)
    rw [hd]
    simp

/-- Witness for claim C7 at the specification's concrete inputs:
0 articles give 1 page and 23 articles at page size 5 give 5 pages. -/
theorem claim_C7_witness :
    ((App.paginate_entries ([] : List Article) 5).2 =
       max 1 ((List.length ([] : List Article) + 5 - 1) / 5) ∧
     (App.paginate_entries ([] : List Article) 5).2 = 1) ∧
    ((App.paginate_entries (List.replicate 23 artAI1) 5).2 =
       max 1 (((List.replicate 23 artAI1).length + 5 - 1) / 5) ∧
     (App.paginate_entries (List.replicate 23 artAI1) 5).2 = 5) :=
  ⟨⟨(claim_C7 [] 5 (by decide)).1, by decide⟩,
   ⟨(claim_C7 (List.replicate 23 artAI1) 5 (by decide)).1, by decide⟩⟩

end AiRssNews

namespace AiRssNews

/-- Claim C8, as stated, is refuted by src/src/news_analyzer.py: the
2xx body `\x7b"choices": 5\x7d` parses as JSON and lacks
`choices[0].message.content`, but the failing access raises
`TypeError`, which `except (KeyError, IndexError)` does not catch — the
function raises instead of returning a failure value. -/
theorem claim_C8_counterexample :
    extractContent (JVal.obj [("choices", JVal.num 5)]) =
      .error (.typeError "'int' object is not subscriptable") ∧
    SrcNewsAnalyzer.call_openrouter_api (some "k")
        (.body "raw" (.ok (JVal.obj [("choices", JVal.num 5)]))) =
      (.raised (.typeError "'int' object is not subscriptable"), 1) :=
  ⟨rfl, rfl⟩

/-- Claim C8 (amended): for every 2xx response whose parsed body makes
the access `choices[0].message.content` raise a `KeyError` or an
`IndexError` (as `\x7b"choices": []\x7d` does), both analyzer variants
return a failure identifying the structure error rather than raising;
bodies whose failed access raises `TypeError` escape the
src/src handler (the src/ variant still converts them to a generic
failure through its outer `except Exception`). -/
theorem claim_C8 (key text : String) (data : JVal) (e : PyErr)
    (hkey : key ≠ "") (he : extractContent data = .error e)
    (hc : e.isCatchableKI = true) :
    SrcNewsAnalyzer.call_openrouter_api (some key) (.body text (.ok data)) =
      (.returned (.err ("Malformed JSON structure: " ++ e.text ++
        " — full JSON: " ++ pyRepr data)), 1) ∧
    NewsAnalyzer.call_openrouter_api (some key) (.body text (.ok data)) =
      (.returned (.err ("Invalid API response structure: " ++ e.text)), 1) := by
  have hne : ¬(some key = (none : Option String) ∨ some key = some "") := by
    simp [hkey]
  constructor
  · simp only [SrcNewsAnalyzer.call_openrouter_api, if_neg hne, he, hc, if_true]
  · simp only [NewsAnalyzer.call_openrouter_api, he, hc, if_true]

/-- Witness for the amended claim C8 at the specification's concrete
scenario: the 2xx body `\x7b"choices": []\x7d` yields a failure whose
message carries `IndexError`'s text `list index out of range` in both
variants. -/
theorem claim_C8_witness :
    SrcNewsAnalyzer.call_openrouter_api (some "k")
        (.body "raw" (.ok (JVal.obj [("choices", JVal.arr [])]))) =
      (.returned (.err ("Malformed JSON structure: " ++
        (PyErr.indexError "list index out of range").text ++
        " — full JSON: " ++ pyRepr (JVal.obj [("choices", JVal.arr [])]))), 1) ∧
    NewsAnalyzer.call_openrouter_api (some "k")
        (.body "raw" (.ok (JVal.obj [("choices", JVal.arr [])]))) =
      (.returned (.err ("Invalid API response structure: " ++
        (PyErr.indexError "list index out of range").text)), 1) :=
  claim_C8 "k" "raw" (JVal.obj [("choices", JVal.arr [])])
    (PyErr.indexError "list index out of range") (by decide) rfl rfl

/-- Claim C9: every Article built by either normalizer has all four
fields as plain strings (non-null by construction in the embedding),
and the absent-field placeholders are as documented: a missing title
gives the title placeholder (`"No title"` in src/app.py, `"Untitled"`
in src/src/app.py), a missing summary gives
`"No summary available"`, and a missing link gives the empty string. -/
theorem claim_C9 (e : RawEntry) :
    (e.title = none → (App.normalizeEntry e).title = "No title" ∧
      (SrcApp.normalizeEntry e).title = "Untitled") ∧
    (e.summary = none → (App.normalizeEntry e).summary = "No summary available" ∧
      (SrcApp.normalizeEntry e).summary = "No summary available") ∧
    (e.link = none → (App.normalizeEntry e).link = "" ∧
      (SrcApp.normalizeEntry e).link = "") := by
  refine ⟨fun h => ?_, fun h => ?_, fun h => ?_⟩ <;>
    simp [App.normalizeEntry, SrcApp.normalizeEntry, h]

/-- Witness for claim C9: the fully absent entry maps to the
documented placeholders in both variants. -/
theorem claim_C9_witness :
    ((App.normalizeEntry ⟨none, none, none, none, none⟩).title = "No title" ∧
     (SrcApp.normalizeEntry ⟨none, none, none, none, none⟩).title = "Untitled") ∧
    ((App.normalizeEntry ⟨none, none, none, none, none⟩).summary =
       "No summary available" ∧
     (SrcApp.normalizeEntry ⟨none, none, none, none, none⟩).summary =
       "No summary available") ∧
    ((App.normalizeEntry ⟨none, none, none, none, none⟩).link = "" ∧
     (SrcApp.normalizeEntry ⟨none, none, none, none, none⟩).link = "") :=
  ⟨(claim_C9 ⟨none, none, none, none, none⟩).1 rfl,
   (claim_C9 ⟨none, none, none, none, none⟩).2.1 rfl,
   (claim_C9 ⟨none, none, none, none, none⟩).2.2 rfl⟩

/-- Claim C10: an entry exposing neither `published` nor `updated`
yields, in `fetch_rss_feed` (src/app.py), an Article whose `published`
field is the placeholder `"No date"`. -/
theorem claim_C10 (e : RawEntry) (hp : e.published = none)
    (hu : e.updated = none) :
    (App.normalizeEntry e).published = "No date" := by
  simp [App.normalizeEntry, hp, hu]

/-- Witness for claim C10: a concrete entry with title, link and
summary but no date attribute at all. -/
theorem claim_C10_witness :
    (App.normalizeEntry ⟨some "T", some "L", some "S", none, none⟩).published =
      "No date" :=
  claim_C10 ⟨some "T", some "L", some "S", none, none⟩ rfl rfl

end AiRssNews
